import Mathlib

/-!
Verification of the web-supervisor component (`src/mars/services/web/supervisor.py`)
against its natural-language specification.

The embedding below translates the Python source into Lean:
* Python dicts (registries keyed by URL path-pattern) become association lists
  with first-match lookup (Python dicts have unique keys) and in-place update.
* `WebActor.__init__` becomes `webActorInit`, `WebActor.__post_create__` becomes
  `postCreate`, `WebActor.__pre_destroy__` becomes `preDestroy`,
  `WebActor.get_web_address` becomes `getWebAddress`.
* External collaborators are oracles: module resolution (`importlib.import_module`)
  is a function `String → Option WebModule` (`none` = ImportError), the port
  allocator (`get_next_port`) and the server engine (`Server(...)` construction
  and `.start()`, which may raise `OSError`) live in `StartEnv`.
* Exceptions become explicit outcome values (`LoopExit`, `StartResult.ok`).
* Handler values are represented by `Nat` identifiers; only the keying by
  path-pattern matters to the claims.
-/

/-! ## Association-list model of Python dicts -/

/-- First-match lookup, `d.get(k)` / `d[k]` on a Python dict (whose keys are
unique, so first match is the only match). -/
def dget {α : Type} (d : List (String × α)) (k : String) : Option α :=
  match d with
  | [] => none
  | (k', v) :: rest => if k' = k then some v else dget rest k

/-- `d[k] = v` on a Python dict: overwrite the entry in place when the key is
present, append a fresh entry otherwise. -/
def dset {α : Type} (d : List (String × α)) (k : String) (v : α) :
    List (String × α) :=
  match d with
  | [] => [(k, v)]
  | (k', v') :: rest =>
    if k' = k then (k, v) :: rest else (k', v') :: dset rest k v

/-- `d.update(e)` on Python dicts: set every entry of `e` into `d`, in order. -/
def dupdate {α : Type} (d e : List (String × α)) : List (String × α) :=
  e.foldl (fun acc p => dset acc p.1 p.2) d

theorem dget_dset {α : Type} (d : List (String × α)) (k k' : String) (v : α) :
    dget (dset d k v) k' = if k' = k then some v else dget d k' := by
  induction d with
  | nil =>
    by_cases h : k' = k
    · subst h; simp [dset, dget]
    · simp [dset, dget, h, Ne.symm h]
  | cons hd tl ih =>
    obtain ⟨k₀, v₀⟩ := hd
    by_cases h₀ : k₀ = k
    · subst h₀
      by_cases h₁ : k' = k₀
      · simp [dset, dget, h₁]
      · simp [dset, dget, h₁, Ne.symm h₁]
    · by_cases h₁ : k₀ = k'
      · subst h₁
        simp [dset, dget, h₀, ih, Ne.symm h₀]
      · simp [dset, dget, h₀, h₁, ih]

/-- A key that does not occur among the keys of `e` looks up to `none`. -/
theorem dget_eq_none_of_not_mem {α : Type} (e : List (String × α)) (k : String)
    (h : k ∉ e.map Prod.fst) : dget e k = none := by
  induction e with
  | nil => rfl
  | cons hd tl ih =>
    obtain ⟨k₀, v₀⟩ := hd
    have hne : ¬ k₀ = k := by
      intro hk; exact h (by simp [hk])
    have htl : k ∉ tl.map Prod.fst := fun hk => h (by simp [hk])
    simp [dget, hne, ih htl]

/-- Updating with a list that does not bind `k` leaves the lookup of `k`
unchanged. -/
theorem dget_dupdate_of_not_bound {α : Type} (e : List (String × α)) :
    ∀ (d : List (String × α)) (k : String), dget e k = none →
      dget (dupdate d e) k = dget d k := by
  induction e with
  | nil => intro d k _; rfl
  | cons hd tl ih =>
    intro d k hk
    obtain ⟨k₀, v₀⟩ := hd
    have hne : ¬ k₀ = k := by
      intro h; simp [dget, h] at hk
    have htl : dget tl k = none := by
      simpa [dget, hne] using hk
    have hstep : dupdate d ((k₀, v₀) :: tl) = dupdate (dset d k₀ v₀) tl := rfl
    rw [hstep, ih _ k htl, dget_dset]
    rw [if_neg (Ne.symm hne)]

/-- A key bound by the updating list (with unique keys) ends up with the
updating list's value, whatever `d` held before. -/
theorem dget_dupdate_of_bound {α : Type} (e : List (String × α)) :
    ∀ (d : List (String × α)) (k : String) (v : α),
      (e.map Prod.fst).Nodup → dget e k = some v →
      dget (dupdate d e) k = some v := by
  induction e with
  | nil => intro d k v _ h; simp [dget] at h
  | cons hd tl ih =>
    intro d k v hnd hk
    obtain ⟨k₀, v₀⟩ := hd
    have hstep : dupdate d ((k₀, v₀) :: tl) = dupdate (dset d k₀ v₀) tl := rfl
    by_cases h₀ : k₀ = k
    · subst h₀
      have hv : v₀ = v := by simpa [dget] using hk
      subst hv
      have hknotin : k₀ ∉ tl.map Prod.fst := by
        simpa using (List.nodup_cons.mp hnd).1
      have htl : dget tl k₀ = none := dget_eq_none_of_not_mem tl k₀ hknotin
      rw [hstep, dget_dupdate_of_not_bound tl _ _ htl, dget_dset]
      simp
    · have htl : dget tl k = some v := by
        simpa [dget, h₀] using hk
      exact hstep ▸ ih (dset d k₀ v₀) k v (List.nodup_cons.mp hnd).2 htl

theorem dupdate_nil {α : Type} (d : List (String × α)) : dupdate d [] = d := rfl

/-! ## Data model of the web supervisor -/

/-- A plugin module discovered by `importlib.import_module`: its exported
`web_handlers` and `bokeh_apps` registries (`getattr(mod, ..., {})`; a missing
attribute is the empty registry). -/
structure WebModule where
  web_handlers : List (String × Nat)
  bokeh_apps : List (String × Nat)
deriving DecidableEq

/-- The `config` dict handed to `WebActor`. `none` models an absent key.
Python truthiness matters at start time: `some 0` for `port` and `some ""` for
`host` are falsy and treated like absent values (supervisor.py lines 73-74). -/
structure WebConfig where
  host : Option String := none
  port : Option Nat := none
  bokeh_apps : Option (List (String × Nat)) := none
  web_handlers : Option (List (String × Nat)) := none
  extra_discovery_modules : Option (List String) := none

/-- The actor's mutable attributes: `self._config`, `self._web_server`
(a server object, by id), `self._web_address` (unset before start). -/
structure WebState where
  config : WebConfig
  webServer : Option Nat
  webAddress : Option String

/-- `WebActor.__init__` (supervisor.py lines 49-65).

`extra_mod_names = config.get('extra_discovery_modules') or []`;
`bokeh_apps`/`web_handlers` start from the config (default `{}`); each module
that resolves has its exports merged by `dict.update`; ImportError is swallowed.
Finally `config['bokeh_apps'] = bokeh_apps` is written back.  `web_handlers` is
written back only through aliasing: `config.get('web_handlers', {})` returns the
config's own dict when the key is present (so in-place updates land in the
config), and a fresh discarded dict when it is absent. -/
def webActorInit (cfg : WebConfig) (imp : String → Option WebModule) :
    WebState :=
  let mods : List String :=
    match cfg.extra_discovery_modules with
    | none => []
    | some l => l
  let whs0 : List (String × Nat) :=
    match cfg.web_handlers with
    | none => []
    | some d => d
  let apps0 : List (String × Nat) :=
    match cfg.bokeh_apps with
    | none => []
    | some d => d
  let merged : List (String × Nat) × List (String × Nat) :=
    mods.foldl
      (fun st m =>
        match imp m with
        | some wm => (dupdate st.1 wm.web_handlers, dupdate st.2 wm.bokeh_apps)
        | none => st)
      (whs0, apps0)
  { config :=
      { cfg with
        bokeh_apps := some merged.2
        web_handlers :=
          match cfg.web_handlers with
          | none => none
          | some _ => some merged.1 }
    webServer := none
    webAddress := none }

/-! ## Bootstrap / port-acquisition state machine (`__post_create__`) -/

/-- Outcome of one bind attempt against the external server engine.
`self._web_server = Server(...)` may raise `OSError` before the assignment
(`createFail`), or the assignment may succeed (server object `s`) and the
subsequent `self._web_server.start()` raise `OSError` (`startFail s`). -/
inductive AttemptResult where
  | ok (s : Nat)
  | createFail
  | startFail (s : Nat)
deriving DecidableEq

/-- External capabilities consumed during `__post_create__`: the `get_next_port`
allocator (indexed by how many calls were made before) and the server engine
(indexed by the 0-based bind-attempt number and the port bound). -/
structure StartEnv where
  nextPort : Nat → Nat
  attempt : Nat → Nat → AttemptResult

/-- How the `while retrial:` loop terminated: via `break` (successful start),
via an uncaught / re-raised exception, or by the loop condition turning false
(`retrial == 0`, in which case `__post_create__` returns with no server). -/
inductive LoopExit where
  | broke
  | raised
  | fell
deriving DecidableEq

/-- Observable outcome of the `while retrial:` loop: how it exited, the final
`self._web_server`, the ports of the bind attempts in order, the total number
of `get_next_port` calls, and the value of `retrial` on exit. -/
structure LoopRes where
  exitKind : LoopExit
  webServer : Option Nat
  attempts : List Nat
  allocCalls : Nat
  retrialLeft : Nat
deriving DecidableEq

/-- The `while retrial:` loop of `__post_create__` (supervisor.py lines 91-111),
transcribed clause by clause.  `portVar` is the Python variable `port`
(`none` = Python `None`); the fuel is the Python variable `retrial`.

Body: `if port is None: port = get_next_port()`; then the bind attempt; on
success `break`; on `OSError`, `if port is not None: raise`, else
`retrial -= 1` and `if retrial == 0: raise`, else loop.  Exceptions other
than `OSError` would propagate identically to the `raise` cases. -/
def bindLoop (env : StartEnv) :
    Nat → Option Nat → Nat → Option Nat → List Nat → LoopRes
  | 0, _, k, ws, tried => ⟨LoopExit.fell, ws, tried, k, 0⟩
  | r + 1, portVar, k, ws, tried =>
    let p : Nat := match portVar with
      | none => env.nextPort k
      | some q => q
    let k' : Nat := match portVar with
      | none => k + 1
      | some _ => k
    let portVar' : Option Nat := some p
    match env.attempt tried.length p with
    | AttemptResult.ok s => ⟨LoopExit.broke, some s, tried ++ [p], k', r + 1⟩
    | AttemptResult.createFail =>
      if portVar'.isSome then ⟨LoopExit.raised, ws, tried ++ [p], k', r + 1⟩
      else if r = 0 then ⟨LoopExit.raised, ws, tried ++ [p], k', r⟩
      else bindLoop env r portVar' k' ws (tried ++ [p])
    | AttemptResult.startFail s =>
      if portVar'.isSome then ⟨LoopExit.raised, some s, tried ++ [p], k', r + 1⟩
      else if r = 0 then ⟨LoopExit.raised, some s, tried ++ [p], k', r⟩
      else bindLoop env r portVar' k' (some s) (tried ++ [p])

/-- `host = self._config.get('host') or '0.0.0.0'` (line 73): an absent or
falsy (empty) host is replaced by the wildcard bind address. -/
def resolvedHost (cfg : WebConfig) : String :=
  match cfg.host with
  | none => "0.0.0.0"
  | some h => if h = "" then "0.0.0.0" else h

/-- `port = self._config.get('port') or get_next_port()` (line 74): an absent
or falsy (`0`) port draws the first allocator value. -/
def resolvedPort (cfg : WebConfig) (env : StartEnv) : Nat :=
  match cfg.port with
  | none => env.nextPort 0
  | some p => if p = 0 then env.nextPort 0 else p

/-- Number of `get_next_port` calls made by line 74. -/
def allocCalls0 (cfg : WebConfig) : Nat :=
  match cfg.port with
  | none => 1
  | some p => if p = 0 then 1 else 0

/-- `self._web_address = f'http://{host}:{port}'` (line 75). -/
def mkWebAddress (host : String) (port : Nat) : String :=
  "http://" ++ host ++ ":" ++ Nat.repr port

/-- Result of running `__post_create__`: `ok = false` means an exception
propagated out of the hook (fatal start error); `state` is the actor state
left behind in either case. -/
structure StartResult where
  ok : Bool
  state : WebState
  attempts : List Nat
  allocCalls : Nat
  retrialLeft : Nat

/-- `WebActor.__post_create__` (supervisor.py lines 67-111): resolve host and
port, record `self._web_address`, then run the bind loop.  The handler-registry
construction of lines 77-89 has no effect on these fields and is modelled
separately (`startWebHandlers`). -/
def postCreate (st : WebState) (env : StartEnv) : StartResult :=
  let host := resolvedHost st.config
  let port0 := resolvedPort st.config env
  let webAddress := mkWebAddress host port0
  let res := bindLoop env 5 (some port0) (allocCalls0 st.config) st.webServer []
  { ok := match res.exitKind with
      | LoopExit.raised => false
      | _ => true
    state := { st with webAddress := some webAddress, webServer := res.webServer }
    attempts := res.attempts
    allocCalls := res.allocCalls
    retrialLeft := res.retrialLeft }

/-- `WebActor.__pre_destroy__` (supervisor.py lines 113-115): call
`self._web_server.stop()` when a server object is stored.  The returned Bool
records whether `stop()` was invoked (`false` = the hook was a no-op); the
hook's own body cannot raise. -/
def preDestroy (st : WebState) : Bool :=
  st.webServer.isSome

/-! ## Python `str.replace` and `WebActor.get_web_address` -/

/-- Python `str.replace` scan: copy characters left to right; at each position
with no replacement in progress (`skip = 0`), if the pattern starts here, emit
the replacement and skip past the matched characters (non-overlapping).
`skip` counts matched characters still to be consumed.  (For the empty pattern
Python inserts between characters; the pattern used by the source,
`'0.0.0.0'`, is never empty, and the guard keeps this function total.) -/
def pyRepGo (pat rep : List Char) : List Char → Nat → List Char
  | [], _ => []
  | _ :: rest, skip + 1 => pyRepGo pat rep rest skip
  | c :: rest, 0 =>
    if pat ≠ [] ∧ pat.isPrefixOf (c :: rest) then
      rep ++ pyRepGo pat rep rest (pat.length - 1)
    else
      c :: pyRepGo pat rep rest 0

/-- `s.replace(old, new)` on Python strings. -/
def pyReplaceS (s old new : String) : String :=
  ⟨pyRepGo old.data new.data s.data 0⟩

/-- `WebActor.get_web_address` (supervisor.py lines 117-121): read
`self._web_address` (absent before start, hence `Option`), and on a
Windows-like platform (`os.name == 'nt'`) replace `'0.0.0.0'` with
`'127.0.0.1'` in the returned copy only. -/
def getWebAddress (st : WebState) (osName : String) : Option String :=
  match st.webAddress with
  | none => none
  | some a => some (if osName = "nt" then pyReplaceS a "0.0.0.0" "127.0.0.1" else a)

/-! ## Static-asset path resolution (`BokehStaticFileHandler`) -/

/-- Python substring test `pat in s`: does `pat` occur contiguously in `s`? -/
def containsSub (pat : List Char) : List Char → Bool
  | [] => pat.isEmpty
  | c :: rest => pat.isPrefixOf (c :: rest) || containsSub pat rest

/-- `path.rsplit('/', 1)[-1]`: the part of `path` after its last `'/'`
(the whole string when there is no `'/'`). -/
def lastSegment (s : List Char) : List Char :=
  (s.reverse.takeWhile (fun c => c ≠ '/')).reverse

/-- `BokehStaticFileHandler._get_path_root(root, path)` (supervisor.py lines
32-38): when the final path segment contains the marker `'bokeh'`, swap the
root for the bokeh server engine's bundled static directory
(`os.path.join(os.path.dirname(bokeh.server.__file__), "static")`, passed in
as `bokehStatic` since it is an installation-dependent path); otherwise keep
the configured root. -/
def getPathRoot (bokehStatic root path : String) : String :=
  if containsSub "bokeh".data (lastSegment path.data) then bokehStatic else root

/-- The effective root used by `BokehStaticFileHandler.get_absolute_path`
(lines 40-42): it calls `super().get_absolute_path(cls._get_path_root(root,
path), path)`, so the root it resolves against is `_get_path_root(root, path)`. -/
def getAbsolutePathRoot (bokehStatic root path : String) : String :=
  getPathRoot bokehStatic root path

/-- The effective root used by `BokehStaticFileHandler.validate_absolute_path`
(lines 44-46): it calls `super().validate_absolute_path(self._get_path_root(
root, absolute_path), absolute_path)`, so the root it validates against is
`_get_path_root(root, absolute_path)`. -/
def validateAbsolutePathRoot (bokehStatic root absolutePath : String) : String :=
  getPathRoot bokehStatic root absolutePath

/-! ## Handler registry built at start -/

/-- Line 77 of `__post_create__`:
`web_handlers.update(self._config.get('web_handlers', {}))`, where
`web_handlers` is the registry imported from `indexhandler` (repository code
outside `src/`, kept abstract as `base`).  The merged result is the plain
handler registry that lines 88-89 register with the server. -/
def startWebHandlers (base : List (String × Nat)) (cfg : WebConfig) :
    List (String × Nat) :=
  dupdate base
    (match cfg.web_handlers with
     | none => []
     | some d => d)

/-! ## Behaviour of the bind loop -/

/-- One iteration of the loop when the Python `port` variable already holds a
value (as it always does after line 74): whatever the attempt's outcome, the
loop never reaches its retry path, because the handler's `if port is not None:
raise` test is true. -/
theorem bindLoop_someport (env : StartEnv) (r p k : Nat) (ws : Option Nat)
    (tried : List Nat) :
    bindLoop env (r + 1) (some p) k ws tried =
      match env.attempt tried.length p with
      | AttemptResult.ok s =>
        ⟨LoopExit.broke, some s, tried ++ [p], k, r + 1⟩
      | AttemptResult.createFail =>
        ⟨LoopExit.raised, ws, tried ++ [p], k, r + 1⟩
      | AttemptResult.startFail s =>
        ⟨LoopExit.raised, some s, tried ++ [p], k, r + 1⟩ := by
  cases h : env.attempt tried.length p <;> simp [bindLoop, h]

/-- `postCreate` unfolded through the first (and, as `bindLoop_someport` shows,
only) bind attempt. -/
theorem postCreate_eq (st : WebState) (env : StartEnv) :
    postCreate st env =
      let port0 := resolvedPort st.config env
      let addr := mkWebAddress (resolvedHost st.config) port0
      match env.attempt 0 port0 with
      | AttemptResult.ok s =>
        ⟨true, { st with webAddress := some addr, webServer := some s },
          [port0], allocCalls0 st.config, 5⟩
      | AttemptResult.createFail =>
        ⟨false, { st with webAddress := some addr, webServer := st.webServer },
          [port0], allocCalls0 st.config, 5⟩
      | AttemptResult.startFail s =>
        ⟨false, { st with webAddress := some addr, webServer := some s },
          [port0], allocCalls0 st.config, 5⟩ := by
  have h5 : (5 : Nat) = 4 + 1 := rfl
  cases h : env.attempt 0 (resolvedPort st.config env) <;>
    simp [postCreate, h5, bindLoop_someport, h]

/-! ## Concrete fixtures -/

/-- Module resolver where no extra discovery module can be imported. -/
def impNone : String → Option WebModule := fun _ => none

/-- Allocator always hands out port 9000; every bind attempt raises `OSError`
inside `Server(...)` (address in use). -/
def envAllFail : StartEnv :=
  { nextPort := fun _ => 9000, attempt := fun _ _ => AttemptResult.createFail }

/-- Allocator always hands out port 9000; `Server(...)` succeeds (object `1`)
and `self._web_server.start()` raises `OSError`. -/
def envStartFail : StartEnv :=
  { nextPort := fun _ => 9000, attempt := fun _ _ => AttemptResult.startFail 1 }

/-- Allocator always hands out port 9000; every bind attempt succeeds with
server object `1`. -/
def envOk : StartEnv :=
  { nextPort := fun _ => 9000, attempt := fun _ _ => AttemptResult.ok 1 }

/-- `config = {}`: no explicit port, no host, nothing else. -/
def cfgNoPort : WebConfig := {}

/-- `config = {'port': 8080}`: an explicit caller-specified port. -/
def cfgPort8080 : WebConfig := { port := some 8080 }

/-- `config = {'host': '10.0.0.0', 'port': 80}`: an explicit non-wildcard bind
host that happens to contain `'0.0.0.0'` as a substring. -/
def cfgTenHost : WebConfig := { host := some "10.0.0.0", port := some 80 }

/-! ## Bridges between `__init__` output and start-time resolution -/

theorem resolvedPort_init (cfg : WebConfig) (imp : String → Option WebModule)
    (env : StartEnv) :
    resolvedPort (webActorInit cfg imp).config env = resolvedPort cfg env := rfl

theorem resolvedHost_init (cfg : WebConfig) (imp : String → Option WebModule) :
    resolvedHost (webActorInit cfg imp).config = resolvedHost cfg := rfl

theorem allocCalls0_init (cfg : WebConfig) (imp : String → Option WebModule) :
    allocCalls0 (webActorInit cfg imp).config = allocCalls0 cfg := rfl

theorem webActorInit_webServer (cfg : WebConfig)
    (imp : String → Option WebModule) :
    (webActorInit cfg imp).webServer = none := rfl

/-! ## Claims -/

/-- Claim C1.  The claim says: with no explicit `port` configured and every
bind attempt failing with an OS-level address-in-use error, a fresh candidate
port is drawn from the allocator before every bind attempt and up to exactly 5
bind attempts occur before the failure becomes fatal.  The code does not do
this: line 74 (`port = self._config.get('port') or get_next_port()`) draws one
port eagerly, so the Python variable `port` is never `None`; the in-loop
reallocation (`if port is None`) never fires and the `except OSError` handler's
`if port is not None: raise` always re-raises.  At the failing input below
(empty config, allocator yielding 9000, every bind raising `OSError`) exactly
one bind attempt happens, on the single pre-allocated port, the allocator is
consulted exactly once, and `retrial` is still 5 when the error escapes. -/
theorem c1_single_attempt_no_realloc :
    (postCreate (webActorInit cfgNoPort impNone) envAllFail).ok = false
    ∧ (postCreate (webActorInit cfgNoPort impNone) envAllFail).attempts = [9000]
    ∧ (postCreate (webActorInit cfgNoPort impNone) envAllFail).allocCalls = 1
    ∧ (postCreate (webActorInit cfgNoPort impNone) envAllFail).retrialLeft =
        5 := by
  decide

/-- Claim C2: when the configuration sets an explicit (truthy) port, a bind
failure on that port propagates immediately as a fatal error: the only bind
attempt is on that exact port, the allocator is never consulted, and the retry
budget is still at its initial value 5 when the error escapes. -/
theorem c2_explicit_port_fail_fast (cfg : WebConfig)
    (imp : String → Option WebModule) (env : StartEnv) (p : Nat)
    (h1 : cfg.port = some p) (h2 : p ≠ 0)
    (h3 : ∀ s, env.attempt 0 p ≠ AttemptResult.ok s) :
    (postCreate (webActorInit cfg imp) env).ok = false
    ∧ (postCreate (webActorInit cfg imp) env).attempts = [p]
    ∧ (postCreate (webActorInit cfg imp) env).allocCalls = 0
    ∧ (postCreate (webActorInit cfg imp) env).retrialLeft = 5 := by
  have hres : resolvedPort (webActorInit cfg imp).config env = p := by
    rw [resolvedPort_init]
    simp [resolvedPort, h1, h2]
  have halloc : allocCalls0 (webActorInit cfg imp).config = 0 := by
    rw [allocCalls0_init]
    simp [allocCalls0, h1, h2]
  rw [postCreate_eq]
  simp only [hres, halloc]
  cases h : env.attempt 0 p with
  | ok s => exact absurd h (h3 s)
  | createFail => simp
  | startFail s => simp

/-- Claim C2 witness: explicit port 8080, every bind attempt failing. -/
theorem c2_explicit_port_fail_fast_witness :
    (postCreate (webActorInit cfgPort8080 impNone) envAllFail).ok = false
    ∧ (postCreate (webActorInit cfgPort8080 impNone) envAllFail).attempts =
        [8080]
    ∧ (postCreate (webActorInit cfgPort8080 impNone) envAllFail).allocCalls = 0
    ∧ (postCreate (webActorInit cfgPort8080 impNone) envAllFail).retrialLeft =
        5 :=
  c2_explicit_port_fail_fast cfgPort8080 impNone envAllFail 8080 rfl
    (by decide) (fun s h => AttemptResult.noConfusion h)

/-- Claim C3 counterexample.  The claim says a fatal start failure leaves no
partial state — in particular no public address recorded.  But line 75 assigns
`self._web_address` before the first bind attempt, so after this failing start
(explicit port 8080, bind raises `OSError`) the address-query state holds
`http://0.0.0.0:8080` even though `__post_create__` raised. -/
theorem c3_partial_state_cex :
    (postCreate (webActorInit cfgPort8080 impNone) envAllFail).ok = false
    ∧ (postCreate (webActorInit cfgPort8080 impNone) envAllFail).state.webAddress
        = some "http://0.0.0.0:8080" := by
  decide

/-- Claim C3 as amended: a fatal start failure does leave partial state.  The
public address is always recorded (line 75 runs before the bind loop) as
`http://<resolved host>:<resolved port>`, and the server resource is retained
exactly when the failure occurred after `Server(...)` succeeded (i.e. during
`start()`); only when server construction itself raised is no server resource
stored. -/
theorem c3_partial_state_amended (cfg : WebConfig)
    (imp : String → Option WebModule) (env : StartEnv)
    (hfail : (postCreate (webActorInit cfg imp) env).ok = false) :
    (postCreate (webActorInit cfg imp) env).state.webAddress
      = some (mkWebAddress (resolvedHost cfg) (resolvedPort cfg env))
    ∧ ((postCreate (webActorInit cfg imp) env).state.webServer = none
        ↔ env.attempt 0 (resolvedPort cfg env) = AttemptResult.createFail) := by
  rw [postCreate_eq] at hfail ⊢
  rw [resolvedPort_init] at hfail ⊢
  rw [resolvedHost_init]
  cases h : env.attempt 0 (resolvedPort cfg env) with
  | ok s => simp [h] at hfail
  | createFail => simp [h, webActorInit_webServer]
  | startFail s => simp [h]

/-- Claim C3 amended witness: server construction fails on explicit port 8080;
the address is recorded and no server resource is stored. -/
theorem c3_partial_state_amended_witness :
    (postCreate (webActorInit cfgPort8080 impNone) envAllFail).state.webAddress
      = some (mkWebAddress (resolvedHost cfgPort8080)
          (resolvedPort cfgPort8080 envAllFail))
    ∧ ((postCreate (webActorInit cfgPort8080 impNone) envAllFail).state.webServer
          = none
        ↔ envAllFail.attempt 0 (resolvedPort cfgPort8080 envAllFail)
          = AttemptResult.createFail) :=
  c3_partial_state_amended cfgPort8080 impNone envAllFail (by decide)

/-- `self._config.get('bokeh_apps', {})` (lines 56 and 76). -/
def configBokehApps (cfg : WebConfig) : List (String × Nat) :=
  match cfg.bokeh_apps with
  | none => []
  | some d => d

/-- Claim C5: the marker test of `_get_path_root` decides the effective root —
the engine's bundled static directory when the final path segment contains
`'bokeh'`, the configured root otherwise — and `get_absolute_path` and
`validate_absolute_path` use the same effective root for the same path
argument, because both delegate to the shared `_get_path_root`. -/
theorem c5_static_root_consistency (bokehStatic root path : String) :
    (containsSub "bokeh".data (lastSegment path.data) = true →
      getAbsolutePathRoot bokehStatic root path = bokehStatic)
    ∧ (containsSub "bokeh".data (lastSegment path.data) = false →
      getAbsolutePathRoot bokehStatic root path = root)
    ∧ getAbsolutePathRoot bokehStatic root path =
        validateAbsolutePathRoot bokehStatic root path := by
  refine ⟨?_, ?_, rfl⟩ <;> intro h <;>
    simp [getAbsolutePathRoot, getPathRoot, h]

/-- Claim C5 witness: `/static/bokeh-widgets.js` resolves against the engine
root, `/static/app.css` against the configured root, and resolution and
validation agree. -/
theorem c5_static_root_consistency_witness :
    getAbsolutePathRoot "/bokeh/static" "/app/static"
        "sub/static/bokeh-widgets.js" = "/bokeh/static"
    ∧ getAbsolutePathRoot "/bokeh/static" "/app/static"
        "sub/static/app.css" = "/app/static"
    ∧ getAbsolutePathRoot "/bokeh/static" "/app/static"
        "sub/static/app.css" =
      validateAbsolutePathRoot "/bokeh/static" "/app/static"
        "sub/static/app.css" :=
  ⟨(c5_static_root_consistency "/bokeh/static" "/app/static"
      "sub/static/bokeh-widgets.js").1 (by decide),
   (c5_static_root_consistency "/bokeh/static" "/app/static"
      "sub/static/app.css").2.1 (by decide),
   (c5_static_root_consistency "/bokeh/static" "/app/static"
      "sub/static/app.css").2.2⟩

/-- Claim C6: plugin registries are merged in sequence order with
overwrite-on-conflict keyed by path-pattern.  With modules `[a, b]` both
exporting a bokeh app for pattern `pt`, the final app registry holds `b`'s
value, whatever the config itself supplied for `pt` (the conclusion is
independent of `cfg.bokeh_apps`, so later modules also win over
config-supplied entries). -/
theorem c6_plugin_merge_last_wins (cfg : WebConfig)
    (imp : String → Option WebModule) (a b : String) (ma mb : WebModule)
    (pt : String) (va vb : Nat)
    (hmods : cfg.extra_discovery_modules = some [a, b])
    (ha : imp a = some ma) (hb : imp b = some mb)
    (hnd : (mb.bokeh_apps.map Prod.fst).Nodup)
    (_hva : dget ma.bokeh_apps pt = some va)
    (hvb : dget mb.bokeh_apps pt = some vb) :
    dget (configBokehApps (webActorInit cfg imp).config) pt = some vb := by
  have hmerge : configBokehApps (webActorInit cfg imp).config =
      dupdate (dupdate (configBokehApps cfg) ma.bokeh_apps) mb.bokeh_apps := by
    simp [webActorInit, configBokehApps, hmods, ha, hb, List.foldl]
  rw [hmerge]
  exact dget_dupdate_of_bound mb.bokeh_apps _ pt vb hnd hvb

/-- Module A: exports a handler and an app for `/x` with value 1. -/
def modA : WebModule := ⟨[("/x", 1)], [("/x", 1)]⟩

/-- Module B: exports a handler and an app for `/x` with value 2. -/
def modB : WebModule := ⟨[("/x", 2)], [("/x", 2)]⟩

/-- Resolver knowing modules "A" and "B"; everything else is unresolvable. -/
def impAB : String → Option WebModule := fun n =>
  if n = "A" then some modA else if n = "B" then some modB else none

/-- `config = {'bokeh_apps': {'/x': 0}, 'extra_discovery_modules': ['A','B']}`. -/
def cfgModsAB : WebConfig :=
  { bokeh_apps := some [("/x", 0)], extra_discovery_modules := some ["A", "B"] }

/-- Claim C6 witness: modules A and B both export an app for `/x`; B's value
(2) wins over A's (1) and over the config-supplied value (0). -/
theorem c6_plugin_merge_last_wins_witness :
    dget (configBokehApps (webActorInit cfgModsAB impAB).config) "/x" =
      some 2 :=
  c6_plugin_merge_last_wins cfgModsAB impAB "A" "B" modA modB "/x" 1 2
    rfl (by decide) (by decide) (by decide) (by decide) (by decide)

/-- Claim C7: a discovery module that fails to resolve (ImportError) is
swallowed — the registries produced by `__init__` are the same as if the
failing module had not been listed, later modules are still merged, and the
server still starts (given a first bind attempt that succeeds). -/
theorem c7_plugin_failure_swallowed (cfg : WebConfig)
    (imp : String → Option WebModule) (name : String) (rest : List String)
    (hmods : cfg.extra_discovery_modules = some (name :: rest))
    (hfailedImport : imp name = none) :
    (webActorInit cfg imp).config.bokeh_apps =
      (webActorInit { cfg with extra_discovery_modules := some rest }
        imp).config.bokeh_apps
    ∧ (webActorInit cfg imp).config.web_handlers =
      (webActorInit { cfg with extra_discovery_modules := some rest }
        imp).config.web_handlers
    ∧ (∀ env s, env.attempt 0 (resolvedPort cfg env) = AttemptResult.ok s →
        (postCreate (webActorInit cfg imp) env).ok = true) := by
  refine ⟨?_, ?_, ?_⟩
  · simp [webActorInit, hmods, hfailedImport, List.foldl]
  · simp [webActorInit, hmods, hfailedImport, List.foldl]
  · intro env s h
    rw [postCreate_eq]
    simp [resolvedPort_init, h]

/-- `config = {'extra_discovery_modules': ['missing', 'B']}`: the first listed
module cannot be imported. -/
def cfgMissingMod : WebConfig :=
  { extra_discovery_modules := some ["missing", "B"] }

/-- Claim C7 witness: module "missing" cannot be imported; module "B" after it
is still merged, and the server starts. -/
theorem c7_plugin_failure_swallowed_witness :
    (webActorInit cfgMissingMod impAB).config.bokeh_apps =
      (webActorInit
        { cfgMissingMod with extra_discovery_modules := some ["B"] }
        impAB).config.bokeh_apps
    ∧ (postCreate (webActorInit cfgMissingMod impAB) envOk).ok = true :=
  ⟨(c7_plugin_failure_swallowed cfgMissingMod impAB "missing" ["B"] rfl
      (by decide)).1,
   (c7_plugin_failure_swallowed cfgMissingMod impAB "missing" ["B"] rfl
      (by decide)).2.2 envOk 1 (by decide)⟩

/-- Claim C8 counterexample.  The claim says the stop hook is a no-op whenever
the start hook never successfully completed.  But `__post_create__` assigns
`self._web_server = Server(...)` before calling `.start()`: when `Server(...)`
succeeds and `.start()` raises `OSError`, the start hook fails yet the server
object stays stored, and `__pre_destroy__` then calls `stop()` on it — not a
no-op. -/
theorem c8_stop_noop_cex :
    (postCreate (webActorInit cfgPort8080 impNone) envStartFail).ok = false
    ∧ preDestroy
        (postCreate (webActorInit cfgPort8080 impNone) envStartFail).state =
      true := by
  decide

/-- Claim C8 as amended: the stop hook is a no-op (and its own body cannot
raise) exactly when no server object is stored — in particular before any
start and after a start whose `Server(...)` construction failed; after a start
that failed in `.start()` (post-construction), the stored server is stopped. -/
theorem c8_stop_noop_amended (cfg : WebConfig)
    (imp : String → Option WebModule) (env : StartEnv) :
    preDestroy (webActorInit cfg imp) = false
    ∧ (env.attempt 0 (resolvedPort cfg env) = AttemptResult.createFail →
        preDestroy (postCreate (webActorInit cfg imp) env).state = false)
    ∧ (∀ s, env.attempt 0 (resolvedPort cfg env) = AttemptResult.startFail s →
        preDestroy (postCreate (webActorInit cfg imp) env).state = true) := by
  refine ⟨rfl, ?_, ?_⟩
  · intro h
    rw [postCreate_eq]
    simp [resolvedPort_init, h, preDestroy, webActorInit_webServer]
  · intro s h
    rw [postCreate_eq]
    simp [resolvedPort_init, h, preDestroy]

/-- Claim C8 amended witness: fresh actor (stop is a no-op); construction
failure (stop is a no-op); start-call failure (stop stops the stored server). -/
theorem c8_stop_noop_amended_witness :
    preDestroy (webActorInit cfgPort8080 impNone) = false
    ∧ preDestroy
        (postCreate (webActorInit cfgPort8080 impNone) envAllFail).state = false
    ∧ preDestroy
        (postCreate (webActorInit cfgPort8080 impNone) envStartFail).state =
      true :=
  ⟨(c8_stop_noop_amended cfgPort8080 impNone envAllFail).1,
   (c8_stop_noop_amended cfgPort8080 impNone envAllFail).2.1 (by decide),
   (c8_stop_noop_amended cfgPort8080 impNone envStartFail).2.2 1 (by decide)⟩

/-- Claim C9: when the config has no `'web_handlers'` key, the plugin-exported
web handlers merged during `__init__` go into a fresh dict that is never
written back (only `config['bokeh_apps'] = bokeh_apps` is), so the plain
handler registry built at start (line 77) is exactly the built-in `base`
registry, while the app registry does retain the plugin contributions. -/
theorem c9_web_handlers_not_persisted (base : List (String × Nat))
    (cfg : WebConfig) (imp : String → Option WebModule)
    (a : String) (m : WebModule) (pt : String) (v : Nat)
    (hwh : cfg.web_handlers = none)
    (hmods : cfg.extra_discovery_modules = some [a])
    (ha : imp a = some m)
    (hnd : (m.bokeh_apps.map Prod.fst).Nodup)
    (hv : dget m.bokeh_apps pt = some v) :
    (webActorInit cfg imp).config.web_handlers = none
    ∧ startWebHandlers base (webActorInit cfg imp).config = base
    ∧ dget (configBokehApps (webActorInit cfg imp).config) pt = some v := by
  have h1 : (webActorInit cfg imp).config.web_handlers = none := by
    simp [webActorInit, hwh]
  refine ⟨h1, ?_, ?_⟩
  · rw [startWebHandlers, h1]
    rfl
  · have hmerge : configBokehApps (webActorInit cfg imp).config =
        dupdate (configBokehApps cfg) m.bokeh_apps := by
      simp [webActorInit, configBokehApps, hmods, ha, List.foldl]
    rw [hmerge]
    exact dget_dupdate_of_bound m.bokeh_apps _ pt v hnd hv

/-- Claim C9 witness: module A exports a web handler and an app for `/x`; with
no `'web_handlers'` key in the config, the start-time handler registry is the
untouched base registry while the app registry holds A's app. -/
theorem c9_web_handlers_not_persisted_witness :
    (webActorInit { extra_discovery_modules := some ["A"] }
        (fun n => if n = "A" then some ⟨[("/x", 1)], [("/x", 1)]⟩
          else none)).config.web_handlers = none
    ∧ startWebHandlers [("/idx", 7)]
        (webActorInit { extra_discovery_modules := some ["A"] }
          (fun n => if n = "A" then some ⟨[("/x", 1)], [("/x", 1)]⟩
            else none)).config = [("/idx", 7)]
    ∧ dget (configBokehApps
        (webActorInit { extra_discovery_modules := some ["A"] }
          (fun n => if n = "A" then some ⟨[("/x", 1)], [("/x", 1)]⟩
            else none)).config) "/x" = some 1 :=
  c9_web_handlers_not_persisted [("/idx", 7)]
    { extra_discovery_modules := some ["A"] }
    (fun n => if n = "A" then some ⟨[("/x", 1)], [("/x", 1)]⟩ else none)
    "A" ⟨[("/x", 1)], [("/x", 1)]⟩ "/x" 1 rfl rfl (by decide) (by decide)
    (by decide)

/-- `config = {'host': '', 'port': 0}`: both keys present but falsy. -/
def cfgFalsy : WebConfig := { host := some "", port := some 0 }

/-- Claim C10: Python truthiness makes falsy configured values behave like
absent ones at start: a configured port of `0` draws from the allocator
exactly as an absent port does, and a configured empty host resolves to the
default bind host `0.0.0.0` exactly as an absent host does. -/
theorem c10_falsy_config_defaults (cfg : WebConfig) (env : StartEnv)
    (h1 : cfg.port = some 0) (h2 : cfg.host = some "") :
    resolvedPort cfg env = env.nextPort 0
    ∧ resolvedHost cfg = "0.0.0.0"
    ∧ resolvedPort cfg env = resolvedPort { cfg with port := none } env
    ∧ resolvedHost cfg = resolvedHost { cfg with host := none } := by
  simp [resolvedPort, resolvedHost, h1, h2]

/-- Claim C10 witness. -/
theorem c10_falsy_config_defaults_witness :
    resolvedPort cfgFalsy envOk = envOk.nextPort 0
    ∧ resolvedHost cfgFalsy = "0.0.0.0"
    ∧ resolvedPort cfgFalsy envOk = resolvedPort { cfgFalsy with port := none } envOk
    ∧ resolvedHost cfgFalsy = resolvedHost { cfgFalsy with host := none } :=
  c10_falsy_config_defaults cfgFalsy envOk rfl rfl

/-! ## Properties of the `str.replace` scan -/

/-- Elements of a matching pattern occur in the scanned list. -/
theorem mem_of_isPrefixOf {pat s : List Char} (h : pat.isPrefixOf s = true) :
    ∀ a ∈ pat, a ∈ s := by
  induction pat generalizing s with
  | nil => intro a ha; simp at ha
  | cons c cs ih =>
    cases s with
    | nil => simp [List.isPrefixOf] at h
    | cons b bs =>
      simp only [List.isPrefixOf, Bool.and_eq_true, beq_iff_eq] at h
      intro a ha
      rcases List.mem_cons.mp ha with h1 | h2
      · exact h1 ▸ h.1 ▸ List.mem_cons_self b bs
      · exact List.mem_cons_of_mem b (ih h.2 a h2)

/-- A string with no occurrence of the pattern is left unchanged by the
replace scan. -/
theorem pyRepGo_id_of_not_contains (pat rep : List Char) :
    ∀ s : List Char, containsSub pat s = false → pyRepGo pat rep s 0 = s := by
  intro s
  induction s with
  | nil => intro _; rfl
  | cons c rest ih =>
    intro h
    simp [containsSub] at h
    simp [pyRepGo, h.1, ih h.2]

/-- A pattern containing `'.'` cannot occur in a string without `'.'`. -/
theorem containsSub_eq_false_of_no_dot {pat : List Char} (hpat : '.' ∈ pat) :
    ∀ s : List Char, '.' ∉ s → containsSub pat s = false := by
  intro s
  induction s with
  | nil =>
    intro _
    have : pat ≠ [] := fun h => by simp [h] at hpat
    simp [containsSub, this]
  | cons c rest ih =>
    intro hs
    have h1 : pat.isPrefixOf (c :: rest) = false := by
      cases hp : pat.isPrefixOf (c :: rest) with
      | false => rfl
      | true => exact absurd (mem_of_isPrefixOf hp '.' hpat) hs
    have h2 : '.' ∉ rest := fun hm => hs (List.mem_cons_of_mem c hm)
    simp [containsSub, h1, ih h2]

/-- Skipping consumes one character. -/
theorem pyRepGo_skip (pat rep : List Char) (c : Char) (s : List Char)
    (k : Nat) : pyRepGo pat rep (c :: s) (k + 1) = pyRepGo pat rep s k := rfl

/-- A non-matching position is copied verbatim. -/
theorem pyRepGo_nomatch (pat rep : List Char) (c : Char) (s : List Char)
    (h : pat.isPrefixOf (c :: s) = false) :
    pyRepGo pat rep (c :: s) 0 = c :: pyRepGo pat rep s 0 := by
  simp [pyRepGo, h]

/-- A matching position emits the replacement and skips the matched suffix. -/
theorem pyRepGo_match (pat rep : List Char) (c : Char) (s : List Char)
    (h1 : pat ≠ []) (h2 : pat.isPrefixOf (c :: s) = true) :
    pyRepGo pat rep (c :: s) 0 = rep ++ pyRepGo pat rep s (pat.length - 1) := by
  simp [pyRepGo, h1, h2]

/-- Mismatching heads make the whole pattern mismatch. -/
theorem isPfxOf_cons_false (a : Char) (as : List Char) (b : Char)
    (bs : List Char) (h : (a == b) = false) :
    (a :: as).isPrefixOf (b :: bs) = false := by
  simp [List.isPrefixOf] at h ⊢
  intro he
  exact absurd he h

/-- Replacing `0.0.0.0` with `127.0.0.1` in `http://0.0.0.0:<tail>` where the
tail has no dot (e.g. a decimal port) rewrites exactly the wildcard host. -/
theorem pyRepGo_wildcard (tail : List Char) (htail : '.' ∉ tail) :
    pyRepGo "0.0.0.0".data "127.0.0.1".data ("http://0.0.0.0:".data ++ tail) 0
      = "http://127.0.0.1:".data ++ tail := by
  have hpat : "0.0.0.0".data = ['0', '.', '0', '.', '0', '.', '0'] := rfl
  have hpre : "http://0.0.0.0:".data =
      ['h', 't', 't', 'p', ':', '/', '/', '0', '.', '0', '.', '0', '.', '0',
        ':'] := rfl
  have hrep : "http://127.0.0.1:".data =
      ['h', 't', 't', 'p', ':', '/', '/', '1', '2', '7', '.', '0', '.', '0',
        '.', '1', ':'] := rfl
  rw [hpre, hrep]
  simp only [List.cons_append, List.nil_append]
  rw [pyRepGo_nomatch _ _ _ _ (hpat ▸ isPfxOf_cons_false _ _ _ _ (by decide))]
  rw [pyRepGo_nomatch _ _ _ _ (hpat ▸ isPfxOf_cons_false _ _ _ _ (by decide))]
  rw [pyRepGo_nomatch _ _ _ _ (hpat ▸ isPfxOf_cons_false _ _ _ _ (by decide))]
  rw [pyRepGo_nomatch _ _ _ _ (hpat ▸ isPfxOf_cons_false _ _ _ _ (by decide))]
  rw [pyRepGo_nomatch _ _ _ _ (hpat ▸ isPfxOf_cons_false _ _ _ _ (by decide))]
  rw [pyRepGo_nomatch _ _ _ _ (hpat ▸ isPfxOf_cons_false _ _ _ _ (by decide))]
  rw [pyRepGo_nomatch _ _ _ _ (hpat ▸ isPfxOf_cons_false _ _ _ _ (by decide))]
  have hm : "0.0.0.0".data.isPrefixOf
      ('0' :: '.' :: '0' :: '.' :: '0' :: '.' :: '0' :: ':' :: tail) = true := by
    rw [hpat]; simp [List.isPrefixOf]
  rw [pyRepGo_match _ _ _ _ (by rw [hpat]; simp) hm]
  have hlen : "0.0.0.0".data.length - 1 = 6 := rfl
  rw [hlen, pyRepGo_skip, pyRepGo_skip, pyRepGo_skip, pyRepGo_skip,
    pyRepGo_skip, pyRepGo_skip]
  rw [pyRepGo_nomatch _ _ _ _ (hpat ▸ isPfxOf_cons_false _ _ _ _ (by decide))]
  rw [pyRepGo_id_of_not_contains _ _ tail
    (containsSub_eq_false_of_no_dot (by rw [hpat]; simp) tail htail)]
  rfl

/-- On a wildcard-host address the query-time rewrite yields the loopback
address, provided the port's decimal digits contain no dot (as decimal digits
never do). -/
theorem pyReplaceS_wildcard (p : Nat) (hdot : '.' ∉ (Nat.repr p).data) :
    pyReplaceS (mkWebAddress "0.0.0.0" p) "0.0.0.0" "127.0.0.1"
      = mkWebAddress "127.0.0.1" p := by
  have hpre : ("http://" ++ "0.0.0.0" ++ ":" : String).data
      = "http://0.0.0.0:".data := rfl
  have hpre2 : ("http://" ++ "127.0.0.1" ++ ":" : String).data
      = "http://127.0.0.1:".data := rfl
  apply String.ext
  show pyRepGo "0.0.0.0".data "127.0.0.1".data
      (mkWebAddress "0.0.0.0" p).data 0 = (mkWebAddress "127.0.0.1" p).data
  have h1 : (mkWebAddress "0.0.0.0" p).data
      = "http://0.0.0.0:".data ++ (Nat.repr p).data := by
    show (("http://" ++ "0.0.0.0" ++ ":") ++ Nat.repr p).data = _
    rw [String.data_append, hpre]
  have h2 : (mkWebAddress "127.0.0.1" p).data
      = "http://127.0.0.1:".data ++ (Nat.repr p).data := by
    show (("http://" ++ "127.0.0.1" ++ ":") ++ Nat.repr p).data = _
    rw [String.data_append, hpre2]
  rw [h1, h2]
  exact pyRepGo_wildcard (Nat.repr p).data hdot

/-- An address with no occurrence of `0.0.0.0` is returned unchanged by the
rewrite. -/
theorem pyReplaceS_id (a : String)
    (h : containsSub "0.0.0.0".data a.data = false) :
    pyReplaceS a "0.0.0.0" "127.0.0.1" = a := by
  apply String.ext
  exact pyRepGo_id_of_not_contains _ _ a.data h

/-- A supervisor state whose start completed with `self._web_address` holding
`http://<host>:<p>` (the config plays no role in the address query). -/
def startedState (host : String) (p : Nat) : WebState :=
  { config := {}, webServer := some 1,
    webAddress := some (mkWebAddress host p) }

/-- Claim C4 counterexample.  The claim says the query returns the unmodified
host whenever the bind host is not `0.0.0.0`.  But line 120 performs a plain
substring replacement on the whole address string: after a successful start
with the explicit (non-wildcard) bind host `10.0.0.0` and port 80, the query
on a Windows-like platform returns `http://1127.0.0.1:80` — a mangled host —
instead of the stored `http://10.0.0.0:80`. -/
theorem c4_host_rewrite_cex :
    (postCreate (webActorInit cfgTenHost impNone) envOk).ok = true
    ∧ (postCreate (webActorInit cfgTenHost impNone) envOk).state.webAddress
        = some "http://10.0.0.0:80"
    ∧ getWebAddress (postCreate (webActorInit cfgTenHost impNone) envOk).state
        "nt" = some "http://1127.0.0.1:80"
    ∧ "10.0.0.0" ≠ "0.0.0.0" := by
  decide

/-- Claim C4 as amended: on a Windows-like platform the address query replaces
every occurrence of the substring `0.0.0.0` in the stored address with
`127.0.0.1` — so a `0.0.0.0` bind host becomes `127.0.0.1`, and the address is
returned unmodified exactly when it does not contain `0.0.0.0` as a substring
(hosts merely containing it, such as `10.0.0.0`, are also rewritten).  On
other platforms the stored address is returned unchanged.  The substitution
happens at query time only: whatever the platform, `__post_create__` stores
the true resolved bind host. -/
theorem c4_host_rewrite_amended (host : String) (p : Nat) (os : String)
    (st : WebState) (env : StartEnv)
    (hdot : '.' ∉ (Nat.repr p).data) :
    getWebAddress (startedState "0.0.0.0" p) "nt"
      = some (mkWebAddress "127.0.0.1" p)
    ∧ (containsSub "0.0.0.0".data (mkWebAddress host p).data = false →
        getWebAddress (startedState host p) "nt"
          = some (mkWebAddress host p))
    ∧ (os ≠ "nt" →
        getWebAddress (startedState host p) os = some (mkWebAddress host p))
    ∧ (postCreate st env).state.webAddress
        = some (mkWebAddress (resolvedHost st.config)
            (resolvedPort st.config env)) := by
  refine ⟨?_, ?_, ?_, ?_⟩
  · show some (if ("nt" : String) = "nt" then _ else _) = _
    rw [if_pos rfl, pyReplaceS_wildcard p hdot]
  · intro h
    show some (if ("nt" : String) = "nt" then _ else _) = _
    rw [if_pos rfl, pyReplaceS_id _ h]
  · intro h
    show some (if os = "nt" then _ else _) = _
    rw [if_neg h]
  · rw [postCreate_eq]
    cases h : env.attempt 0 (resolvedPort st.config env) <;> simp [h]

/-- Claim C4 amended witness: port 8080 (no dot in its digits), host
`10.0.0.1` (does not contain `0.0.0.0`), non-Windows platform `posix`. -/
theorem c4_host_rewrite_amended_witness :
    getWebAddress (startedState "0.0.0.0" 8080) "nt"
      = some (mkWebAddress "127.0.0.1" 8080)
    ∧ getWebAddress (startedState "10.0.0.1" 8080) "nt"
        = some (mkWebAddress "10.0.0.1" 8080)
    ∧ getWebAddress (startedState "10.0.0.1" 8080) "posix"
        = some (mkWebAddress "10.0.0.1" 8080)
    ∧ (postCreate (webActorInit cfgNoPort impNone) envOk).state.webAddress
        = some (mkWebAddress (resolvedHost (webActorInit cfgNoPort impNone).config)
            (resolvedPort (webActorInit cfgNoPort impNone).config envOk)) :=
  ⟨(c4_host_rewrite_amended "10.0.0.1" 8080 "posix"
      (webActorInit cfgNoPort impNone) envOk (by decide)).1,
   (c4_host_rewrite_amended "10.0.0.1" 8080 "posix"
      (webActorInit cfgNoPort impNone) envOk (by decide)).2.1 (by decide),
   (c4_host_rewrite_amended "10.0.0.1" 8080 "posix"
      (webActorInit cfgNoPort impNone) envOk (by decide)).2.2.1 (by decide),
   (c4_host_rewrite_amended "10.0.0.1" 8080 "posix"
      (webActorInit cfgNoPort impNone) envOk (by decide)).2.2.2⟩
